import Mathlib

/-!
Shallow embedding of the Stock-Analytics ml-service (Python) in Lean 4.

Covered source files:
* `ml-service/models/price_predictor.py` — the three predictor classes and
  their autoregressive `predict_days` loops,
* `ml-service/models/ensemble.py` — `EnsemblePredictor.predict` (blending,
  confidence bands, chart construction, prediction summary) and
  `EnsemblePredictor.predict_intraday` (OLS trend plus momentum),
* `ml-service/models/cache.py` — `ModelCache`,
* `ml-service/main.py` — the `/predict/price` and `/predict/intraday`
  endpoint logic (validation, cache consult/populate, error mapping).

Modelling conventions:
* Python floats are modelled as real numbers; `round(x, k)` is modelled as
  rounding to the nearest multiple of `10^(-k)`.
* The fitted scikit-learn regressors (`GradientBoostingRegressor.predict`,
  `RandomForestRegressor.predict` composed with `compute_features`,
  `LinearRegression.predict` composed with `compute_features`) are opaque
  learned functions; they enter the embedding as function parameters
  (`List ℝ → ℝ`, from the current working price history / window to the raw
  model output).  Everything the predictors do around those calls (scaling,
  windowing, clamping, feeding back, inverse scaling) is embedded from the
  source.
* The intraday path fits a 1-D ordinary least squares regression directly
  (`lr.model.fit(x, prices)`); OLS on index 0..n-1 is embedded exactly.
* The pandas feature table (`features.py`) is consumed by `ensemble.predict`
  only through the last row's `rsi_14` / `macd` / `macd_signal` values;
  those three scalars are parameters of the embedded `predict`.
* In-place dict mutation on the Python cache-hit path
  (`cached["cached"] = True; cached["training_time_ms"] = 0` aliases the
  stored `entry["data"]`) is modelled by explicitly writing the updated
  payload back into the cache (`ModelCache.updateData`).
* `time.time()` is a parameter `now : ℚ` of each request step, and the
  measured training duration is a parameter `elapsed_ms : ℤ`.
-/

namespace StockAnalytics

/-- Python `round(x, 2)`: round to the nearest multiple of `1/100`. -/
noncomputable def round2 (x : ℝ) : ℝ := (round (x * 100) : ℤ) / 100

/-- Python `round(x, 3)`. -/
noncomputable def round3 (x : ℝ) : ℝ := (round (x * 1000) : ℤ) / 1000

/-- Python `round(x, 4)`. -/
noncomputable def round4 (x : ℝ) : ℝ := (round (x * 10000) : ℤ) / 10000

/-- `np.clip(x, lo, hi)` on scalars: `min (max x lo) hi`. -/
noncomputable def npClip (x lo hi : ℝ) : ℝ := min (max x lo) hi

/-- `np.min` of a price list (0 for the empty list, which the service never
feeds to the scaler). -/
noncomputable def listMin : List ℝ → ℝ
  | [] => 0
  | x :: xs => xs.foldl min x

/-- `np.max` of a price list. -/
noncomputable def listMax : List ℝ → ℝ
  | [] => 0
  | x :: xs => xs.foldl max x

/-- `np.mean` of a list (`sum/len`; division by zero yields 0 in Lean). -/
noncomputable def listMean (l : List ℝ) : ℝ := l.sum / l.length

/-- `np.diff`: successive differences `l[i+1] - l[i]`. -/
def listDiff (l : List ℝ) : List ℝ := List.zipWith (fun a b => b - a) l l.tail

/-- Population variance, `mean ((x - mean l)^2)`. -/
noncomputable def listVar (l : List ℝ) : ℝ :=
  (l.map (fun x => (x - listMean l) ^ 2)).sum / l.length

/-- `np.std`: square root of the population variance. -/
noncomputable def npStd (l : List ℝ) : ℝ := Real.sqrt (listVar l)

/-! ## `price_predictor.py` — the three predictor models -/

/-- `LSTMPredictor` (gradient-boosting on sliding windows of min-max scaled
prices).  `f` is the opaque fitted regressor composed with
`_window_features` (from the scaled window tail to the predicted next scaled
value); `scalerLo`/`scalerHi` are the `MinMaxScaler`'s fitted data min/max. -/
structure LSTMPredictor where
  lookback : ℕ
  f : List ℝ → ℝ
  scalerLo : ℝ
  scalerHi : ℝ
  is_trained : Bool

namespace LSTMPredictor

/-- `MinMaxScaler.transform` for one value: `(x - lo) / (hi - lo)`, with the
zero range replaced by 1 as scikit-learn does. -/
noncomputable def scale (m : LSTMPredictor) (x : ℝ) : ℝ :=
  (x - m.scalerLo) / (if m.scalerHi = m.scalerLo then 1 else m.scalerHi - m.scalerLo)

/-- `MinMaxScaler.inverse_transform` for one value. -/
noncomputable def unscale (m : LSTMPredictor) (y : ℝ) : ℝ :=
  y * (if m.scalerHi = m.scalerLo then 1 else m.scalerHi - m.scalerLo) + m.scalerLo

/-- `LSTMPredictor.train`: fits the scaler on the training prices, fits the
(opaque) regressor, and sets `is_trained`. -/
noncomputable def train (m : LSTMPredictor) (prices : List ℝ) : LSTMPredictor :=
  { m with scalerLo := listMin prices, scalerHi := listMax prices, is_trained := true }

/-- The autoregressive loop of `LSTMPredictor.predict_days` over scaled
values: predict from the window tail, clamp to within ±20% of `sLast`
(`scaled[-1]`, the last scaled value of the *input* series, fixed across
iterations), append to the window, repeat. -/
noncomputable def predictGo (f : List ℝ → ℝ) (lookback : ℕ) (sLast : ℝ) :
    List ℝ → ℕ → List ℝ
  | _, 0 => []
  | w, d + 1 =>
    let p := npClip (f (w.drop (w.length - lookback))) (sLast * 0.8) (sLast * 1.2)
    p :: predictGo f lookback sLast (w ++ [p]) d

/-- `LSTMPredictor.predict_days`: raises `ValueError` when untrained,
otherwise scales the series, runs the loop, and inverse-transforms each
prediction. -/
noncomputable def predict_days (m : LSTMPredictor) (prices : List ℝ) (days : ℕ) :
    Except String (List ℝ) :=
  if m.is_trained then
    let scaled := prices.map m.scale
    let window := scaled.drop (scaled.length - m.lookback)
    .ok ((predictGo m.f m.lookback (scaled.getLast?.getD 0) window days).map m.unscale)
  else
    .error "Model not trained. Call train() first."

end LSTMPredictor

/-- The shared autoregressive loop of `RandomForestPredictor.predict_days`
and `LinearRegressionPredictor.predict_days` (their bodies are identical in
the source): predict the next-day return from the working price history,
clamp it to [-0.05, 0.05], apply it to the last working price, feed the new
price back, repeat. -/
noncomputable def iterPredictGo (f : List ℝ → ℝ) : List ℝ → ℕ → List ℝ
  | _, 0 => []
  | cur, d + 1 =>
    let predicted_return := npClip (f cur) (-0.05) 0.05
    let next_price := cur.getLast?.getD 0 * (1 + predicted_return)
    next_price :: iterPredictGo f (cur ++ [next_price]) d

/-- `RandomForestPredictor`: `f` is the opaque fitted forest composed with
`compute_features` + last-row extraction (working price history ↦ raw
predicted next-day return). -/
structure RandomForestPredictor where
  f : List ℝ → ℝ
  is_trained : Bool

namespace RandomForestPredictor

/-- `RandomForestPredictor.train` (side-channel signals are stored and the
opaque forest is fitted; only the readiness flag matters here). -/
def train (m : RandomForestPredictor) (_prices : List ℝ) : RandomForestPredictor :=
  { m with is_trained := true }

/-- `RandomForestPredictor.predict_days`. -/
noncomputable def predict_days (m : RandomForestPredictor) (prices : List ℝ)
    (days : ℕ) : Except String (List ℝ) :=
  if m.is_trained then .ok (iterPredictGo m.f prices days)
  else .error "Model not trained."

end RandomForestPredictor

/-- `LinearRegressionPredictor`: `f` is the opaque fitted linear map composed
with `compute_features` + last-row extraction. -/
structure LinearRegressionPredictor where
  f : List ℝ → ℝ
  is_trained : Bool

namespace LinearRegressionPredictor

/-- `LinearRegressionPredictor.train`. -/
def train (m : LinearRegressionPredictor) (_prices : List ℝ) :
    LinearRegressionPredictor :=
  { m with is_trained := true }

/-- `LinearRegressionPredictor.predict_days` (same body as the random-forest
one in the source, with a shorter error message). -/
noncomputable def predict_days (m : LinearRegressionPredictor) (prices : List ℝ)
    (days : ℕ) : Except String (List ℝ) :=
  if m.is_trained then .ok (iterPredictGo m.f prices days)
  else .error "Model not trained."

end LinearRegressionPredictor

/-! ## `ensemble.py` — `EnsemblePredictor.predict` -/

/-- `EnsemblePredictor.WEIGHTS = {"lstm": 0.5, "rf": 0.3, "lr": 0.2}`. -/
structure Weights where
  lstm : ℝ
  rf : ℝ
  lr : ℝ

namespace EnsemblePredictor

noncomputable def WEIGHTS : Weights := ⟨0.5, 0.3, 0.2⟩

end EnsemblePredictor

/-- `np.std([a, b, c])`: population standard deviation of three values. -/
noncomputable def std3 (a b c : ℝ) : ℝ :=
  Real.sqrt (((a - (a + b + c) / 3) ^ 2 + (b - (a + b + c) / 3) ^ 2
      + (c - (a + b + c) / 3) ^ 2) / 3)

/-- The weighted sum `0.5*lstm_preds[i] + 0.3*rf_preds[i] + 0.2*lr_preds[i]`
from the blending loop in `EnsemblePredictor.predict`. -/
noncomputable def wsum (l r t : List ℝ) (i : ℕ) : ℝ :=
  EnsemblePredictor.WEIGHTS.lstm * l.getD i 0 + EnsemblePredictor.WEIGHTS.rf * r.getD i 0
    + EnsemblePredictor.WEIGHTS.lr * t.getD i 0

/-- `np.std([lstm_preds[i], rf_preds[i], lr_preds[i]])` at blend step `i`. -/
noncomputable def sd3At (l r t : List ℝ) (i : ℕ) : ℝ :=
  std3 (l.getD i 0) (r.getD i 0) (t.getD i 0)

/-- The `ensemble_preds` list built by the blending loop (`days = 30`). -/
noncomputable def ensemblePreds (l r t : List ℝ) : List ℝ :=
  (List.range 30).map fun i => round2 (wsum l r t i)

/-- The `uppers` list: `round(weighted + 1.5 * std, 2)` per step. -/
noncomputable def ensembleUppers (l r t : List ℝ) : List ℝ :=
  (List.range 30).map fun i => round2 (wsum l r t i + 1.5 * sd3At l r t i)

/-- The `lowers` list: `round(weighted - 1.5 * std, 2)` per step. -/
noncomputable def ensembleLowers (l r t : List ℝ) : List ℝ :=
  (List.range 30).map fun i => round2 (wsum l r t i - 1.5 * sd3At l r t i)

/-- One element of `chart_data`.  Historical and current points carry no
`upper`/`lower` keys in the Python dict, hence the `Option`. -/
structure ChartPoint where
  day : ℤ
  price : ℝ
  upper : Option ℝ
  lower : Option ℝ
  type : String

/-- The `chart_data` list: the last 30 historical prices (day indices
counting back from the end), the current price at day 0, then the 30
predicted points at days 1..30. -/
noncomputable def chartData (prices : List ℝ) (current_price : ℝ)
    (l r t : List ℝ) : List ChartPoint :=
  let hist_slice := prices.drop (prices.length - 30)
  let hist := (List.range hist_slice.length).map fun i =>
    { day := (i : ℤ) - hist_slice.length, price := round2 (hist_slice.getD i 0),
      upper := none, lower := none, type := "historical" }
  let cur : ChartPoint :=
    { day := 0, price := round2 current_price, upper := none, lower := none,
      type := "current" }
  let preds := (List.range 30).map fun i =>
    { day := (i : ℤ) + 1, price := (ensemblePreds l r t).getD i 0,
      upper := some ((ensembleUppers l r t).getD i 0),
      lower := some ((ensembleLowers l r t).getD i 0), type := "predicted" }
  hist ++ [cur] ++ preds

/-- One value of the prediction-summary dict. -/
structure PredEntry where
  price : ℝ
  change_pct : ℝ
  confidence : ℝ × ℝ

/-- The prediction summary loop over
`[("next_1d", 0), ("next_5d", 4), ("next_10d", 9), ("next_30d", 29)]`,
keeping a label only when its index is below `len(ensemble_preds)`. -/
noncomputable def predSummary (current_price : ℝ) (l r t : List ℝ) :
    List (String × PredEntry) :=
  [("next_1d", 0), ("next_5d", 4), ("next_10d", 9), ("next_30d", 29)].filterMap
    fun li =>
      if li.2 < (ensemblePreds l r t).length then
        some (li.1,
          { price := (ensemblePreds l r t).getD li.2 0,
            change_pct :=
              round2 (((ensemblePreds l r t).getD li.2 0 - current_price)
                / current_price * 100),
            confidence := ((ensembleLowers l r t).getD li.2 0,
              (ensembleUppers l r t).getD li.2 0) })
      else none

/-- The `technical_signals` sub-dict, computed from the feature table's last
row (`rsi_14`, `macd`, `macd_signal`). -/
structure TechSignals where
  rsi : ℝ
  rsi_signal : String
  macd_trend : String
  macd_value : ℝ
  macd_signal : ℝ

/-- The dict returned by `EnsemblePredictor.predict`. -/
structure Result where
  symbol : String
  current_price : ℝ
  chart_data : List ChartPoint
  predictions : List (String × PredEntry)
  model_weights : Weights
  model_predictions : List ℝ × List ℝ × List ℝ
  technical_signals : TechSignals

/-- Assembly of the `EnsemblePredictor.predict` return value from the three
model forecasts and the feature-engine scalars. -/
noncomputable def buildResult (symbol : String) (prices : List ℝ)
    (current_price : ℝ) (l r t : List ℝ) (rsi macd_val macd_sig : ℝ) : Result :=
  { symbol := symbol
    current_price := current_price
    chart_data := chartData prices current_price l r t
    predictions := predSummary current_price l r t
    model_weights := EnsemblePredictor.WEIGHTS
    model_predictions := (l.map round2, r.map round2, t.map round2)
    technical_signals :=
      { rsi := round2 rsi
        rsi_signal :=
          if rsi > 70 then "Overbought" else if rsi < 30 then "Oversold" else "Neutral"
        macd_trend := if macd_val > macd_sig then "Bullish" else "Bearish"
        macd_value := round4 macd_val
        macd_signal := round4 macd_sig } }

namespace EnsemblePredictor

/-- `EnsemblePredictor.predict`: train the three models on the historical
prices (`LSTMPredictor` with `lookback = min(60, len(prices) // 3)`), let
each forecast 30 days, then blend and assemble the result.  The opaque
fitted regressors are the parameters `flstm`, `frf`, `flr`; `rsi`,
`macd_val`, `macd_sig` are the feature table's last-row values.  An
exception raised by any `predict_days` propagates. -/
noncomputable def predict (flstm frf flr : List ℝ → ℝ) (symbol : String)
    (prices : List ℝ) (current_price : ℝ) (rsi macd_val macd_sig : ℝ) :
    Except String Result :=
  let lstm := LSTMPredictor.train
    ⟨min 60 (prices.length / 3), flstm, 0, 0, false⟩ prices
  let rf := RandomForestPredictor.train ⟨frf, false⟩ prices
  let lr := LinearRegressionPredictor.train ⟨flr, false⟩ prices
  match lstm.predict_days prices 30, rf.predict_days prices 30,
      lr.predict_days prices 30 with
  | .ok l, .ok r, .ok t =>
    .ok (buildResult symbol prices current_price l r t rsi macd_val macd_sig)
  | .error e, _, _ => .error e
  | _, .error e, _ => .error e
  | _, _, .error e => .error e

end EnsemblePredictor

/-! ## `ensemble.py` — `EnsemblePredictor.predict_intraday`

The intraday path fits scikit-learn's `LinearRegression` on
`x = arange(n)` versus the recent prices — exact one-dimensional ordinary
least squares. -/

/-- Mean of the regressor indices `0..n-1`. -/
noncomputable def olsXbar (n : ℕ) : ℝ := (∑ i ∈ Finset.range n, (i : ℝ)) / n

/-- OLS slope of `ys` against the index `0..n-1` (centered form, as
scikit-learn computes it). -/
noncomputable def olsSlope (ys : List ℝ) : ℝ :=
  (∑ i ∈ Finset.range ys.length,
      ((i : ℝ) - olsXbar ys.length) * (ys.getD i 0 - ys.sum / ys.length)) /
    ∑ i ∈ Finset.range ys.length, ((i : ℝ) - olsXbar ys.length) ^ 2

/-- OLS intercept. -/
noncomputable def olsIntercept (ys : List ℝ) : ℝ :=
  ys.sum / ys.length - olsSlope ys * olsXbar ys.length

/-- `lr.model.predict([[x]])`: the fitted line evaluated at `x`. -/
noncomputable def olsPredict (ys : List ℝ) (x : ℝ) : ℝ :=
  olsIntercept ys + olsSlope ys * x

/-- One value of the intraday predictions dict. -/
structure IntradayEntry where
  price : ℝ
  upper : ℝ
  lower : ℝ
  direction : String
  change_pct : ℝ

/-- The dict returned by `EnsemblePredictor.predict_intraday`. -/
structure IntradayResult where
  symbol : String
  current_price : ℝ
  predictions : List (String × IntradayEntry)
  momentum : ℝ
  volatility : ℝ
  trend : String

namespace EnsemblePredictor

/-- The per-horizon body of the intraday loop: `steps = max(1,
ticks*60 // interval_seconds)` (integer floor division), trend
extrapolation `steps` ahead, momentum adjustment `momentum*(steps/5)*0.3`,
band `±1.5*volatility*sqrt(steps)`, direction against the last price. -/
noncomputable def intradayEntry (prices : List ℝ) (momentum volatility : ℝ)
    (interval_seconds : ℕ) (ticks : ℕ) : IntradayEntry :=
  let n := prices.length
  let steps := max 1 (ticks * 60 / interval_seconds)
  let trend_pred := olsPredict prices ((n : ℝ) + steps)
  let momentum_adj := momentum * ((steps : ℝ) / 5)
  let pred := trend_pred + momentum_adj * 0.3
  let last := prices.getLast?.getD 0
  { price := round2 pred
    upper := round2 (pred + 1.5 * volatility * Real.sqrt steps)
    lower := round2 (pred - 1.5 * volatility * Real.sqrt steps)
    direction := if pred > last then "up" else "down"
    change_pct := round3 ((pred - last) / last * 100) }

/-- `EnsemblePredictor.predict_intraday`. -/
noncomputable def predict_intraday (symbol : String) (recent_prices : List ℝ)
    (interval_seconds : ℕ) : IntradayResult :=
  let prices := recent_prices
  let n := prices.length
  let momentum := if 5 ≤ n then prices.getLast?.getD 0 - prices.getD (n - 5) 0 else 0
  let avg_change :=
    if 20 ≤ n then listMean (listDiff (prices.drop (n - 20)))
    else listMean (listDiff prices)
  let volatility :=
    if 20 ≤ n then npStd (listDiff (prices.drop (n - 20)))
    else npStd (listDiff prices)
  { symbol := symbol
    current_price := round2 (prices.getLast?.getD 0)
    predictions :=
      [("5min", intradayEntry prices momentum volatility interval_seconds 5),
       ("15min", intradayEntry prices momentum volatility interval_seconds 15),
       ("30min", intradayEntry prices momentum volatility interval_seconds 30)]
    momentum := round4 momentum
    volatility := round4 volatility
    trend := if avg_change > 0 then "up" else "down" }

end EnsemblePredictor

/-! ## `cache.py` — `ModelCache`, and `main.py` — the endpoint logic

The handler-level dict that `main.py` returns is the ensemble `Result` plus
the `training_time_ms` and `cached` keys (`ServedResult` below). -/

/-- The ensemble result together with the two keys `main.py` adds. -/
structure ServedResult where
  res : Result
  training_time_ms : ℤ
  cached : Bool

/-- One value of `ModelCache._cache`: `{"data": ..., "timestamp": ...}`. -/
structure CacheEntry where
  data : ServedResult
  timestamp : ℚ

/-- `ModelCache`: TTL plus the symbol-keyed store (an association list keyed
by upper-cased symbol, first match wins, unique keys maintained by `set`). -/
structure ModelCache where
  ttl : ℚ
  entries : List (String × CacheEntry)

namespace ModelCache

/-- `ModelCache.get`: key is the upper-cased symbol; a fresh entry is
returned, an expired one is deleted.  Returns the read result together with
the store as left behind by the call. -/
def get (c : ModelCache) (now : ℚ) (symbol : String) :
    Option ServedResult × ModelCache :=
  let key := symbol.toUpper
  match c.entries.lookup key with
  | some entry =>
    if now - entry.timestamp < c.ttl then (some entry.data, c)
    else (none, { c with entries := c.entries.filter fun kv => kv.1 != key })
  | none => (none, c)

/-- `ModelCache.set`: store `data` under the upper-cased symbol with the
write timestamp (dict assignment replaces any previous entry). -/
def set (c : ModelCache) (now : ℚ) (symbol : String) (data : ServedResult) :
    ModelCache :=
  let key := symbol.toUpper
  { c with entries := (key, ⟨data, now⟩) :: c.entries.filter fun kv => kv.1 != key }

/-- The in-place mutation of a stored payload dict: on a cache hit,
`main.py` writes `cached`/`training_time_ms` through the alias returned by
`get`, so the stored `data` changes while the timestamp stays. -/
def updateData (c : ModelCache) (symbol : String) (data : ServedResult) :
    ModelCache :=
  let key := symbol.toUpper
  { c with entries := c.entries.map fun kv =>
      if kv.1 = key then (kv.1, ⟨data, kv.2.timestamp⟩) else kv }

/-- `ModelCache.size`. -/
def size (c : ModelCache) : ℕ := c.entries.length

/-- `ModelCache.clear`. -/
def clear (c : ModelCache) : ModelCache := { c with entries := [] }

end ModelCache

/-- HTTP error response (`HTTPException(status_code, detail)`). -/
structure HTTPError where
  status : ℕ
  detail : String

/-- Body of `POST /predict/price`. -/
structure PriceRequest where
  symbol : String
  historical_prices : List ℝ
  current_price : ℝ

/-- Body of `POST /predict/intraday` (`interval_seconds` defaults to 60). -/
structure IntradayRequest where
  symbol : String
  recent_prices : List ℝ
  interval_seconds : ℕ

/-- The `/predict/price` endpoint (`predict_price` in `main.py`): length
validation, cache consult (a hit is served with `cached := true` and
`training_time_ms := 0`, written through the alias into the store), on a
miss the prediction pipeline `pf` runs, its result is stamped and stored,
and an exception from the pipeline surfaces as a 500.  `pf` abstracts
`ensemble.predict` applied to the request; `now` is the request's wall
clock and `elapsed_ms` the measured training duration. -/
def predictPriceStep (pf : PriceRequest → Except String Result)
    (c : ModelCache) (now : ℚ) (elapsed_ms : ℤ) (req : PriceRequest) :
    Except HTTPError ServedResult × ModelCache :=
  if req.historical_prices.length < 30 then
    (.error ⟨400, "Need at least 30 historical prices, got "
        ++ toString req.historical_prices.length⟩, c)
  else
    match c.get now req.symbol with
    | (some d, c1) =>
      let served := { d with cached := true, training_time_ms := 0 }
      (.ok served, c1.updateData req.symbol served)
    | (none, c1) =>
      match pf req with
      | .ok result =>
        let served : ServedResult := ⟨result, elapsed_ms, false⟩
        (.ok served, c1.set now req.symbol served)
      | .error e => (.error ⟨500, "Prediction failed: " ++ e⟩, c1)

/-- The `/predict/intraday` endpoint (`predict_intraday` in `main.py`):
length validation, then the intraday estimator. -/
noncomputable def predictIntradayStep (req : IntradayRequest) :
    Except HTTPError IntradayResult :=
  if req.recent_prices.length < 10 then
    .error ⟨400, "Need at least 10 recent prices, got "
        ++ toString req.recent_prices.length⟩
  else
    .ok (EnsemblePredictor.predict_intraday req.symbol req.recent_prices
      req.interval_seconds)

/-! ## Helper lemmas -/

/-- A concrete result payload, for instantiating witnesses. -/
noncomputable def trivialResult : Result :=
  { symbol := "X", current_price := 1, chart_data := [], predictions := [],
    model_weights := EnsemblePredictor.WEIGHTS, model_predictions := ([], [], []),
    technical_signals := ⟨50, "Neutral", "Bearish", 0, 0⟩ }

lemma npClip_bounds (x lo hi : ℝ) (h : lo ≤ hi) :
    lo ≤ npClip x lo hi ∧ npClip x lo hi ≤ hi :=
  ⟨le_min (le_max_right x lo) h, min_le_right _ _⟩

/-- The per-step relation the Trend/Ensemble loops maintain: the next
working price is the previous one scaled by a clamped return. -/
def clampedStep (prev next : ℝ) : Prop :=
  ∃ r : ℝ, -0.05 ≤ r ∧ r ≤ 0.05 ∧ next = prev * (1 + r)

lemma iterPredictGo_chain (f : List ℝ → ℝ) (cur : List ℝ) (days : ℕ) :
    List.Chain' clampedStep (cur.getLast?.getD 0 :: iterPredictGo f cur days) := by
  induction days generalizing cur with
  | zero => simp [iterPredictGo]
  | succ d ih =>
    rw [iterPredictGo, List.chain'_cons]
    refine ⟨⟨npClip (f cur) (-0.05) 0.05, ?_, ?_, rfl⟩, ?_⟩
    · exact (npClip_bounds _ _ _ (by norm_num)).1
    · exact (npClip_bounds _ _ _ (by norm_num)).2
    · have h := ih (cur ++ [cur.getLast?.getD 0 * (1 + npClip (f cur) (-0.05) 0.05)])
      rwa [List.getLast?_concat, Option.getD_some] at h

lemma predictGo_mem (f : List ℝ → ℝ) (lookback : ℕ) (sLast : ℝ)
    (hs : 0 ≤ sLast) (window : List ℝ) (days : ℕ) :
    ∀ x ∈ LSTMPredictor.predictGo f lookback sLast window days,
      sLast * 0.8 ≤ x ∧ x ≤ sLast * 1.2 := by
  induction days generalizing window with
  | zero => simp [LSTMPredictor.predictGo]
  | succ d ih =>
    rw [LSTMPredictor.predictGo]
    intro x hx
    rcases List.mem_cons.1 hx with rfl | hx
    · exact npClip_bounds _ _ _ (by nlinarith)
    · exact ih _ x hx

/-! ## Claim C3 — clamping in every autoregressive forecast loop -/

/-- Claim C3: in every autoregressive forecast loop the per-step prediction
is clamped before being fed back.  For the Ensemble (random-forest) and
Trend (linear-regression) models, every step of a successful `predict_days`
multiplies the previous working price by `1 + r` with the predicted return
`r` clamped into `[-0.05, 0.05]`; for the Pattern (LSTM-like) model, every
predicted scaled value of the forecast loop lies within ±20% of the last
observed scaled value `sLast` (between `0.8*sLast` and `1.2*sLast`).  This
holds at every iteration, for any horizon. -/
theorem C3_clamping :
    (∀ (m : RandomForestPredictor) (prices : List ℝ) (days : ℕ) (out : List ℝ),
        m.predict_days prices days = .ok out →
        List.Chain' clampedStep (prices.getLast?.getD 0 :: out)) ∧
    (∀ (m : LinearRegressionPredictor) (prices : List ℝ) (days : ℕ) (out : List ℝ),
        m.predict_days prices days = .ok out →
        List.Chain' clampedStep (prices.getLast?.getD 0 :: out)) ∧
    (∀ (f : List ℝ → ℝ) (lookback : ℕ) (sLast : ℝ) (window : List ℝ) (days : ℕ),
        0 ≤ sLast →
        ∀ x ∈ LSTMPredictor.predictGo f lookback sLast window days,
          sLast * 0.8 ≤ x ∧ x ≤ sLast * 1.2) := by
  refine ⟨?_, ?_, fun f lookback sLast window days hs => predictGo_mem f lookback sLast hs window days⟩
  · intro m prices days out hok
    unfold RandomForestPredictor.predict_days at hok
    by_cases ht : m.is_trained
    · rw [if_pos ht] at hok
      cases hok
      exact iterPredictGo_chain m.f prices days
    · rw [if_neg ht] at hok
      cases hok
  · intro m prices days out hok
    unfold LinearRegressionPredictor.predict_days at hok
    by_cases ht : m.is_trained
    · rw [if_pos ht] at hok
      cases hok
      exact iterPredictGo_chain m.f prices days
    · rw [if_neg ht] at hok
      cases hok

/-- Witness for C3 at a concrete trained model, price list and horizon. -/
theorem C3_clamping_witness :
    List.Chain' clampedStep
      (([1] : List ℝ).getLast?.getD 0 :: iterPredictGo (fun _ => 0) [1] 2) ∧
    (∀ x ∈ LSTMPredictor.predictGo (fun _ => 0) 3 1 [1] 2,
        (1 : ℝ) * 0.8 ≤ x ∧ x ≤ (1 : ℝ) * 1.2) :=
  ⟨C3_clamping.1 ⟨fun _ => 0, true⟩ [1] 2 (iterPredictGo (fun _ => 0) [1] 2) rfl,
   C3_clamping.2.2 (fun _ => 0) 3 1 [1] 2 zero_le_one⟩

/-! ## Claim C5 — boundary length validation -/

/-- Claim C5: a full-horizon request with fewer than 30 historical prices is
rejected with a 400 whose detail states the required versus given count, the
cache is left untouched and the prediction pipeline never runs (the outcome
is the same for every pipeline `pf` and every cache state); with exactly 30
prices the request is accepted and (the pipeline succeeding) served.  An
intraday request with fewer than 10 recent prices is likewise rejected with
a 400 naming the shortfall. -/
theorem C5_boundary_validation :
    (∀ (pf : PriceRequest → Except String Result) (c : ModelCache) (now : ℚ)
        (elapsed_ms : ℤ) (req : PriceRequest),
        req.historical_prices.length < 30 →
        predictPriceStep pf c now elapsed_ms req =
          (.error ⟨400, "Need at least 30 historical prices, got "
              ++ toString req.historical_prices.length⟩, c)) ∧
    (∀ (pf : PriceRequest → Except String Result) (c : ModelCache) (now : ℚ)
        (elapsed_ms : ℤ) (req : PriceRequest) (r : Result),
        req.historical_prices.length = 30 → pf req = .ok r →
        ∃ s c2, predictPriceStep pf c now elapsed_ms req = (.ok s, c2)) ∧
    (∀ req : IntradayRequest,
        req.recent_prices.length < 10 →
        predictIntradayStep req =
          .error ⟨400, "Need at least 10 recent prices, got "
              ++ toString req.recent_prices.length⟩) := by
  refine ⟨fun pf c now ems req h => ?_, fun pf c now ems req r hlen hpf => ?_,
    fun req h => ?_⟩
  · rw [predictPriceStep, if_pos h]
  · rw [predictPriceStep, if_neg (by omega)]
    rcases hget : c.get now req.symbol with ⟨od, c1⟩
    rcases od with _ | d
    · rw [hpf]
      exact ⟨_, _, rfl⟩
    · exact ⟨_, _, rfl⟩
  · rw [predictIntradayStep, if_pos h]

/-- Witness for C5: a 29-price request is rejected, a 30-price one accepted,
a 9-price intraday request rejected. -/
theorem C5_boundary_validation_witness :
    predictPriceStep (fun _ => .ok trivialResult) ⟨86400, []⟩ 0 5
        ⟨"X", List.replicate 29 1, 1⟩ =
      (.error ⟨400, "Need at least 30 historical prices, got 29"⟩,
        (⟨86400, []⟩ : ModelCache)) ∧
    (∃ s c2, predictPriceStep (fun _ => .ok trivialResult) ⟨86400, []⟩ 0 5
        ⟨"X", List.replicate 30 1, 1⟩ = (.ok s, c2)) ∧
    predictIntradayStep ⟨"X", List.replicate 9 1, 60⟩ =
      .error ⟨400, "Need at least 10 recent prices, got 9"⟩ :=
  ⟨C5_boundary_validation.1 _ _ _ _ _ (by simp),
   C5_boundary_validation.2.1 _ _ _ _ _ trivialResult (by simp) rfl,
   C5_boundary_validation.2.2 _ (by simp)⟩

/-! ## Claim C6 — predicting on an untrained model errors -/

/-- Claim C6: each of the three predictors refuses `predict_days` before
`train` (an unready-model `ValueError`, never a silent fallback), and after
a successful `train` the unready error cannot occur (the call returns a
forecast).  At the HTTP boundary a pipeline error surfaces as a 500 whose
detail carries the underlying message. -/
theorem C6_untrained_errors :
    (∀ (m : LSTMPredictor) (prices : List ℝ) (days : ℕ),
        m.is_trained = false →
        m.predict_days prices days = .error "Model not trained. Call train() first.") ∧
    (∀ (m : LSTMPredictor) (p0 prices : List ℝ) (days : ℕ),
        ∃ out, (m.train p0).predict_days prices days = .ok out) ∧
    (∀ (m : RandomForestPredictor) (prices : List ℝ) (days : ℕ),
        m.is_trained = false →
        m.predict_days prices days = .error "Model not trained.") ∧
    (∀ (m : RandomForestPredictor) (p0 prices : List ℝ) (days : ℕ),
        ∃ out, (m.train p0).predict_days prices days = .ok out) ∧
    (∀ (m : LinearRegressionPredictor) (prices : List ℝ) (days : ℕ),
        m.is_trained = false →
        m.predict_days prices days = .error "Model not trained.") ∧
    (∀ (m : LinearRegressionPredictor) (p0 prices : List ℝ) (days : ℕ),
        ∃ out, (m.train p0).predict_days prices days = .ok out) ∧
    (∀ (pf : PriceRequest → Except String Result) (ttl now : ℚ) (elapsed_ms : ℤ)
        (req : PriceRequest) (e : String),
        30 ≤ req.historical_prices.length → pf req = .error e →
        (predictPriceStep pf ⟨ttl, []⟩ now elapsed_ms req).1 =
          .error ⟨500, "Prediction failed: " ++ e⟩) := by
  refine ⟨fun m p d h => ?_, fun m p0 p d => ?_, fun m p d h => ?_,
    fun m p0 p d => ?_, fun m p d h => ?_, fun m p0 p d => ?_,
    fun pf ttl now ems req e hlen hpf => ?_⟩
  · rw [LSTMPredictor.predict_days, if_neg (by simp [h])]
  · exact ⟨_, rfl⟩
  · rw [RandomForestPredictor.predict_days, if_neg (by simp [h])]
  · exact ⟨_, rfl⟩
  · rw [LinearRegressionPredictor.predict_days, if_neg (by simp [h])]
  · exact ⟨_, rfl⟩
  · rw [predictPriceStep, if_neg (by omega)]
    simp only [ModelCache.get, List.lookup_nil, hpf]

/-- Witness for C6 at concrete untrained models, a trained model, and a
failing pipeline behind the endpoint. -/
theorem C6_untrained_errors_witness :
    (LSTMPredictor.mk 3 (fun _ => 0) 0 0 false).predict_days [1] 2 =
      .error "Model not trained. Call train() first." ∧
    (∃ out, ((LSTMPredictor.mk 3 (fun _ => 0) 0 0 false).train [1, 2]).predict_days
      [1] 2 = .ok out) ∧
    (RandomForestPredictor.mk (fun _ => 0) false).predict_days [1] 2 =
      .error "Model not trained." ∧
    (LinearRegressionPredictor.mk (fun _ => 0) false).predict_days [1] 2 =
      .error "Model not trained." ∧
    (predictPriceStep (fun _ => .error "boom") ⟨86400, []⟩ 0 5
        ⟨"X", List.replicate 30 1, 1⟩).1 =
      .error ⟨500, "Prediction failed: boom"⟩ :=
  ⟨C6_untrained_errors.1 _ [1] 2 rfl,
   C6_untrained_errors.2.1 _ [1, 2] [1] 2,
   C6_untrained_errors.2.2.1 _ [1] 2 rfl,
   C6_untrained_errors.2.2.2.2.1 _ [1] 2 rfl,
   C6_untrained_errors.2.2.2.2.2.2 _ 86400 0 5 _ "boom" (by simp) rfl⟩

/-! ## Helper lemmas for the ensemble pipeline -/

/-- `EnsemblePredictor.predict` always succeeds: training sets every
readiness flag, so no `predict_days` call can raise. -/
lemma predict_ok (flstm frf flr : List ℝ → ℝ) (symbol : String)
    (prices : List ℝ) (current_price rsi macd_val macd_sig : ℝ) :
    ∃ l r t, EnsemblePredictor.predict flstm frf flr symbol prices current_price
        rsi macd_val macd_sig =
      .ok (buildResult symbol prices current_price l r t rsi macd_val macd_sig) :=
  ⟨_, _, _, rfl⟩

lemma rangeMap_getD {α : Type} (f : ℕ → α) (n i : ℕ) (d : α) (h : i < n) :
    ((List.range n).map f).getD i d = f i := by
  simp [List.getD_eq_getElem?_getD, List.getElem?_range h]

lemma ensemblePreds_getD (l r t : List ℝ) (i : ℕ) (h : i < 30) :
    (ensemblePreds l r t).getD i 0 = round2 (wsum l r t i) :=
  rangeMap_getD _ 30 i 0 h

lemma ensembleUppers_getD (l r t : List ℝ) (i : ℕ) (h : i < 30) :
    (ensembleUppers l r t).getD i 0 = round2 (wsum l r t i + 1.5 * sd3At l r t i) :=
  rangeMap_getD _ 30 i 0 h

lemma ensembleLowers_getD (l r t : List ℝ) (i : ℕ) (h : i < 30) :
    (ensembleLowers l r t).getD i 0 = round2 (wsum l r t i - 1.5 * sd3At l r t i) :=
  rangeMap_getD _ 30 i 0 h

lemma histSliceLen (prices : List ℝ) (h30 : 30 ≤ prices.length) :
    (prices.drop (prices.length - 30)).length = 30 := by
  rw [List.length_drop]; omega

/-- The historical block of `chart_data`. -/
noncomputable def histBlock (prices : List ℝ) : List ChartPoint :=
  (List.range (prices.drop (prices.length - 30)).length).map fun (i : ℕ) =>
    { day := (i : ℤ) - (prices.drop (prices.length - 30)).length,
      price := round2 ((prices.drop (prices.length - 30)).getD i 0),
      upper := none, lower := none, type := "historical" }

/-- The predicted block of `chart_data`. -/
noncomputable def predBlock (l r t : List ℝ) : List ChartPoint :=
  (List.range 30).map fun (i : ℕ) =>
    { day := (i : ℤ) + 1, price := (ensemblePreds l r t).getD i 0,
      upper := some ((ensembleUppers l r t).getD i 0),
      lower := some ((ensembleLowers l r t).getD i 0), type := "predicted" }

/-- `chart_data`, flattened into the historical block followed by the
current point and the predicted block. -/
lemma chartData_eq (prices : List ℝ) (cur : ℝ) (l r t : List ℝ) :
    chartData prices cur l r t =
      histBlock prices
        ++ (({ day := 0, price := round2 cur, upper := none, lower := none,
               type := "current" } : ChartPoint) :: predBlock l r t) := by
  rw [chartData, List.append_assoc]
  rfl

lemma histBlock_length (prices : List ℝ) (h30 : 30 ≤ prices.length) :
    (histBlock prices).length = 30 := by
  simp [histBlock, histSliceLen prices h30]

lemma predBlock_length (l r t : List ℝ) : (predBlock l r t).length = 30 := by
  simp [predBlock]

lemma chartData_length (prices : List ℝ) (cur : ℝ) (l r t : List ℝ)
    (h30 : 30 ≤ prices.length) :
    (chartData prices cur l r t).length = 61 := by
  rw [chartData_eq]
  simp [histBlock_length prices h30, predBlock_length]

lemma chartData_hist_getElem (prices : List ℝ) (cur : ℝ) (l r t : List ℝ)
    (h30 : 30 ≤ prices.length) (i : ℕ) (hi : i < 30) :
    (chartData prices cur l r t)[i]? =
      some ({ day := (i : ℤ) - 30,
              price := round2 ((prices.drop (prices.length - 30)).getD i 0),
              upper := none, lower := none, type := "historical" } : ChartPoint) := by
  rw [chartData_eq,
    List.getElem?_append_left (by rw [histBlock_length prices h30]; omega)]
  rw [histBlock, List.getElem?_map,
    List.getElem?_range (by rw [histSliceLen prices h30]; omega)]
  simp [histSliceLen prices h30]

lemma chartData_current_getElem (prices : List ℝ) (cur : ℝ) (l r t : List ℝ)
    (h30 : 30 ≤ prices.length) :
    (chartData prices cur l r t)[30]? =
      some ({ day := 0, price := round2 cur, upper := none, lower := none,
              type := "current" } : ChartPoint) := by
  rw [chartData_eq,
    List.getElem?_append_right (by rw [histBlock_length prices h30])]
  rw [histBlock_length prices h30]
  simp

lemma chartData_pred_getElem (prices : List ℝ) (cur : ℝ) (l r t : List ℝ)
    (h30 : 30 ≤ prices.length) (i : ℕ) (hi : i < 30) :
    (chartData prices cur l r t)[31 + i]? =
      some ({ day := (i : ℤ) + 1, price := (ensemblePreds l r t).getD i 0,
              upper := some ((ensembleUppers l r t).getD i 0),
              lower := some ((ensembleLowers l r t).getD i 0),
              type := "predicted" } : ChartPoint) := by
  rw [chartData_eq,
    List.getElem?_append_right (by rw [histBlock_length prices h30]; omega)]
  have h31 : 31 + i - (histBlock prices).length = i + 1 := by
    rw [histBlock_length prices h30]; omega
  rw [h31, List.getElem?_cons_succ, predBlock, List.getElem?_map,
    List.getElem?_range hi]
  rfl

lemma chart_countP_hist (prices : List ℝ) (cur : ℝ) (l r t : List ℝ)
    (h30 : 30 ≤ prices.length) :
    (chartData prices cur l r t).countP (fun pt => pt.type == "historical") =
      min 30 prices.length := by
  rw [chartData_eq, List.countP_append, List.countP_cons]
  have h1 : (histBlock prices).countP (fun pt => pt.type == "historical") = 30 := by
    rw [List.countP_eq_length.2 ?_, histBlock_length prices h30]
    intro a ha
    obtain ⟨j, _, rfl⟩ := List.mem_map.1 ha
    rfl
  have h2 : (predBlock l r t).countP (fun pt => pt.type == "historical") = 0 := by
    rw [List.countP_eq_zero.2 ?_]
    intro a ha
    obtain ⟨j, _, rfl⟩ := List.mem_map.1 ha
    simp
  rw [h1, h2]
  simp
  omega


lemma predSummary_labels (cur : ℝ) (l r t : List ℝ) :
    (predSummary cur l r t).map Prod.fst =
      ["next_1d", "next_5d", "next_10d", "next_30d"] := by
  have h : (ensemblePreds l r t).length = 30 := by simp [ensemblePreds]
  simp [predSummary, h]

lemma round2_mono {x y : ℝ} (h : x ≤ y) : round2 x ≤ round2 y := by
  unfold round2
  have hr : round (x * 100) ≤ round (y * 100) := by
    rw [round_eq, round_eq]
    exact Int.floor_le_floor (by linarith)
  have : ((round (x * 100) : ℤ) : ℝ) ≤ ((round (y * 100) : ℤ) : ℝ) :=
    Int.cast_le.2 hr
  linarith

lemma sd3At_nonneg (l r t : List ℝ) (i : ℕ) : 0 ≤ sd3At l r t i :=
  Real.sqrt_nonneg _

/-! ## Claim C1 — the blended forecast is the fixed weighted sum -/

/-- Claim C1: the ensemble weights are `0.5/0.3/0.2` and sum to 1, and for
every full-horizon prediction and every step `i < 30` the blended forecast
(the price carried by the `i`-th predicted chart point) equals
`round(0.5*pattern[i] + 0.3*ensemble[i] + 0.2*trend[i], 2)`, where `l`, `r`,
`t` are the three model forecast lists the pipeline computed (reported
rounded in `model_predictions`). -/
theorem C1_blend_weighted_sum (flstm frf flr : List ℝ → ℝ) (symbol : String)
    (prices : List ℝ) (current_price rsi macd_val macd_sig : ℝ)
    (h30 : 30 ≤ prices.length) :
    EnsemblePredictor.WEIGHTS.lstm + EnsemblePredictor.WEIGHTS.rf
        + EnsemblePredictor.WEIGHTS.lr = 1 ∧
    ∃ l r t res,
      EnsemblePredictor.predict flstm frf flr symbol prices current_price rsi
          macd_val macd_sig = .ok res ∧
      res = buildResult symbol prices current_price l r t rsi macd_val macd_sig ∧
      res.model_predictions = (l.map round2, r.map round2, t.map round2) ∧
      ∀ i : ℕ, i < 30 → ∃ pt : ChartPoint,
        res.chart_data[31 + i]? = some pt ∧
        pt.day = (i : ℤ) + 1 ∧
        pt.price = round2 (EnsemblePredictor.WEIGHTS.lstm * l.getD i 0
          + EnsemblePredictor.WEIGHTS.rf * r.getD i 0
          + EnsemblePredictor.WEIGHTS.lr * t.getD i 0) := by
  refine ⟨by norm_num [EnsemblePredictor.WEIGHTS], ?_⟩
  obtain ⟨l, r, t, hok⟩ := predict_ok flstm frf flr symbol prices current_price
    rsi macd_val macd_sig
  refine ⟨l, r, t, _, hok, rfl, rfl, fun i hi => ?_⟩
  refine ⟨_, chartData_pred_getElem prices current_price l r t h30 i hi, rfl, ?_⟩
  exact ensemblePreds_getD l r t i hi

/-- Witness for C1 at a concrete input. -/
theorem C1_blend_weighted_sum_witness :
    EnsemblePredictor.WEIGHTS.lstm + EnsemblePredictor.WEIGHTS.rf
        + EnsemblePredictor.WEIGHTS.lr = 1 ∧
    ∃ l r t res,
      EnsemblePredictor.predict (fun _ => 0) (fun _ => 0) (fun _ => 0) "X"
          (List.replicate 30 (1 : ℝ)) 1 50 0 0 = .ok res ∧
      res = buildResult "X" (List.replicate 30 (1 : ℝ)) 1
          l r t 50 0 0 ∧
      res.model_predictions = (l.map round2, r.map round2, t.map round2) ∧
      ∀ i : ℕ, i < 30 → ∃ pt : ChartPoint,
        res.chart_data[31 + i]? = some pt ∧
        pt.day = (i : ℤ) + 1 ∧
        pt.price = round2 (EnsemblePredictor.WEIGHTS.lstm * l.getD i 0
          + EnsemblePredictor.WEIGHTS.rf * r.getD i 0
          + EnsemblePredictor.WEIGHTS.lr * t.getD i 0) :=
  C1_blend_weighted_sum (fun _ => 0) (fun _ => 0) (fun _ => 0) "X"
    (List.replicate 30 (1 : ℝ)) 1 50 0 0 (by simp)

/-! ## Claim C2 — the confidence band brackets the blended forecast -/

/-- Claim C2: for every full-horizon prediction and every step `i < 30`,
the predicted chart point carries `price = round2(weighted)`,
`upper = round2(weighted + 1.5*σ)` and `lower = round2(weighted - 1.5*σ)`
with `σ = std3` of the three model forecasts at that step (non-negative),
and the band brackets the rounded blended forecast:
`lower ≤ price ≤ upper`. -/
theorem C2_confidence_band (flstm frf flr : List ℝ → ℝ) (symbol : String)
    (prices : List ℝ) (current_price rsi macd_val macd_sig : ℝ)
    (h30 : 30 ≤ prices.length) :
    ∃ l r t res,
      EnsemblePredictor.predict flstm frf flr symbol prices current_price rsi
          macd_val macd_sig = .ok res ∧
      res = buildResult symbol prices current_price l r t rsi macd_val macd_sig ∧
      ∀ i : ℕ, i < 30 → ∃ (pt : ChartPoint) (u lo : ℝ),
        res.chart_data[31 + i]? = some pt ∧
        pt.price = round2 (wsum l r t i) ∧
        pt.upper = some u ∧ u = round2 (wsum l r t i + 1.5 * sd3At l r t i) ∧
        pt.lower = some lo ∧ lo = round2 (wsum l r t i - 1.5 * sd3At l r t i) ∧
        0 ≤ sd3At l r t i ∧
        lo ≤ pt.price ∧ pt.price ≤ u := by
  obtain ⟨l, r, t, hok⟩ := predict_ok flstm frf flr symbol prices current_price
    rsi macd_val macd_sig
  refine ⟨l, r, t, _, hok, rfl, fun i hi => ?_⟩
  have hσ : 0 ≤ sd3At l r t i := sd3At_nonneg l r t i
  refine ⟨_, _, _, chartData_pred_getElem prices current_price l r t h30 i hi,
    ensemblePreds_getD l r t i hi, rfl, ensembleUppers_getD l r t i hi, rfl,
    ensembleLowers_getD l r t i hi, hσ, ?_, ?_⟩
  · rw [ensemblePreds_getD l r t i hi, ensembleLowers_getD l r t i hi]
    exact round2_mono (by linarith)
  · rw [ensemblePreds_getD l r t i hi, ensembleUppers_getD l r t i hi]
    exact round2_mono (by linarith)

/-- Witness for C2 at a concrete input. -/
theorem C2_confidence_band_witness :
    ∃ l r t res,
      EnsemblePredictor.predict (fun _ => 0) (fun _ => 0) (fun _ => 0) "X"
          (List.replicate 30 (1 : ℝ)) 1 50 0 0 = .ok res ∧
      res = buildResult "X" (List.replicate 30 (1 : ℝ)) 1
          l r t 50 0 0 ∧
      ∀ i : ℕ, i < 30 → ∃ (pt : ChartPoint) (u lo : ℝ),
        res.chart_data[31 + i]? = some pt ∧
        pt.price = round2 (wsum l r t i) ∧
        pt.upper = some u ∧ u = round2 (wsum l r t i + 1.5 * sd3At l r t i) ∧
        pt.lower = some lo ∧ lo = round2 (wsum l r t i - 1.5 * sd3At l r t i) ∧
        0 ≤ sd3At l r t i ∧
        lo ≤ pt.price ∧ pt.price ≤ u :=
  C2_confidence_band (fun _ => 0) (fun _ => 0) (fun _ => 0) "X"
    (List.replicate 30 (1 : ℝ)) 1 50 0 0 (by simp)

/-! ## Claim C4 — chart structure (corrected)

The claim as frozen says the chart holds exactly `min(30, len - 1)`
historical points.  The source takes `prices[-30:]`, which for an accepted
series (`len ≥ 30`) always holds exactly `min(30, len) = 30` points, so the
claim fails at `len = 30` (30 historical points, not 29); see
`C4_chart_structure_counterexample`.  The amended statement below replaces
`min(30, len - 1)` by `min(30, len)`. -/

/-- Amended claim C4: for every price series of length ≥ 30, the result's
chart data consists of exactly `min(30, len) = 30` historical points (type
"historical", day index negative counting back from the end), then one
current-price point at day 0 (type "current"), then exactly 30 predicted
points (type "predicted") at days 1..30 each carrying the weighted price,
upper and lower; and the prediction summary has entries for every horizon
in {1, 5, 10, 30}. -/
theorem C4_chart_structure (flstm frf flr : List ℝ → ℝ) (symbol : String)
    (prices : List ℝ) (current_price rsi macd_val macd_sig : ℝ)
    (h30 : 30 ≤ prices.length) :
    ∃ l r t res,
      EnsemblePredictor.predict flstm frf flr symbol prices current_price rsi
          macd_val macd_sig = .ok res ∧
      res = buildResult symbol prices current_price l r t rsi macd_val macd_sig ∧
      res.chart_data.length = 61 ∧
      res.chart_data.countP (fun pt => pt.type == "historical") =
        min 30 prices.length ∧
      (∀ i : ℕ, i < 30 → ∃ pt : ChartPoint,
        res.chart_data[i]? = some pt ∧ pt.type = "historical" ∧
        pt.day = (i : ℤ) - 30) ∧
      (∃ pt : ChartPoint, res.chart_data[30]? = some pt ∧ pt.type = "current" ∧
        pt.day = 0 ∧ pt.price = round2 current_price) ∧
      (∀ i : ℕ, i < 30 → ∃ (pt : ChartPoint) (u lo : ℝ),
        res.chart_data[31 + i]? = some pt ∧ pt.type = "predicted" ∧
        pt.day = (i : ℤ) + 1 ∧ pt.price = round2 (wsum l r t i) ∧
        pt.upper = some u ∧ pt.lower = some lo) ∧
      res.predictions.map Prod.fst =
        ["next_1d", "next_5d", "next_10d", "next_30d"] := by
  obtain ⟨l, r, t, hok⟩ := predict_ok flstm frf flr symbol prices current_price
    rsi macd_val macd_sig
  refine ⟨l, r, t, _, hok, rfl,
    chartData_length prices current_price l r t h30,
    chart_countP_hist prices current_price l r t h30,
    fun i hi => ⟨_, chartData_hist_getElem prices current_price l r t h30 i hi,
      rfl, rfl⟩,
    ⟨_, chartData_current_getElem prices current_price l r t h30, rfl, rfl, rfl⟩,
    fun i hi => ⟨_, _, _, chartData_pred_getElem prices current_price l r t h30 i hi,
      rfl, rfl, ensemblePreds_getD l r t i hi, rfl, rfl⟩,
    predSummary_labels current_price l r t⟩

/-- Witness for the amended C4 at a concrete 31-price series. -/
theorem C4_chart_structure_witness :
    ∃ l r t res,
      EnsemblePredictor.predict (fun _ => 0) (fun _ => 0) (fun _ => 0) "X"
          (List.replicate 31 (2 : ℝ)) 1 50 0 0 = .ok res ∧
      res = buildResult "X" (List.replicate 31 (2 : ℝ)) 1 l r t 50 0 0 ∧
      res.chart_data.length = 61 ∧
      res.chart_data.countP (fun pt => pt.type == "historical") =
        min 30 (List.replicate 31 (2 : ℝ)).length ∧
      (∀ i : ℕ, i < 30 → ∃ pt : ChartPoint,
        res.chart_data[i]? = some pt ∧ pt.type = "historical" ∧
        pt.day = (i : ℤ) - 30) ∧
      (∃ pt : ChartPoint, res.chart_data[30]? = some pt ∧ pt.type = "current" ∧
        pt.day = 0 ∧ pt.price = round2 1) ∧
      (∀ i : ℕ, i < 30 → ∃ (pt : ChartPoint) (u lo : ℝ),
        res.chart_data[31 + i]? = some pt ∧ pt.type = "predicted" ∧
        pt.day = (i : ℤ) + 1 ∧ pt.price = round2 (wsum l r t i) ∧
        pt.upper = some u ∧ pt.lower = some lo) ∧
      res.predictions.map Prod.fst =
        ["next_1d", "next_5d", "next_10d", "next_30d"] :=
  C4_chart_structure (fun _ => 0) (fun _ => 0) (fun _ => 0) "X"
    (List.replicate 31 (2 : ℝ)) 1 50 0 0 (by simp)

/-- Counterexample to C4 as frozen: at a series of length exactly 30 the
chart holds 30 historical points, not `min(30, len - 1) = 29`. -/
theorem C4_chart_structure_counterexample :
    ∃ res,
      EnsemblePredictor.predict (fun _ => 0) (fun _ => 0) (fun _ => 0) "X"
          (List.replicate 30 (2 : ℝ)) 1 50 0 0 = .ok res ∧
      res.chart_data.countP (fun pt => pt.type == "historical") ≠
        min 30 ((List.replicate 30 (2 : ℝ)).length - 1) := by
  obtain ⟨l, r, t, hok⟩ := predict_ok (fun _ => 0) (fun _ => 0) (fun _ => 0) "X"
    (List.replicate 30 (2 : ℝ)) 1 50 0 0
  refine ⟨_, hok, ?_⟩
  have hc := chart_countP_hist (List.replicate 30 (2 : ℝ)) 1 l r t (by simp)
  simpa using hc.symm ▸ (by simp : min 30 (List.replicate 30 (2:ℝ)).length ≠
    min 30 ((List.replicate 30 (2 : ℝ)).length - 1))

/-! ## Helper lemmas for the cache and the `/predict/price` flow -/

/-- A miss on the empty cache: trains, stamps and stores the result. -/
lemma firstStep (pf : PriceRequest → Except String Result) (ttl now1 : ℚ)
    (T1 : ℤ) (req1 : PriceRequest) (r1 : Result)
    (hl1 : 30 ≤ req1.historical_prices.length) (hpf : pf req1 = .ok r1) :
    predictPriceStep pf ⟨ttl, []⟩ now1 T1 req1 =
      (.ok ⟨r1, T1, false⟩,
        ⟨ttl, [(req1.symbol.toUpper, ⟨⟨r1, T1, false⟩, now1⟩)]⟩) := by
  rw [predictPriceStep, if_neg (by omega)]
  have hget : (⟨ttl, []⟩ : ModelCache).get now1 req1.symbol =
      (none, ⟨ttl, []⟩) := by
    unfold ModelCache.get
    simp
  rw [hget, hpf]
  rfl

/-- A fresh hit on a single-entry cache: the stored payload is served with
`cached := true` and `training_time_ms := 0`, and those two fields are also
written back into the stored entry (the in-place dict mutation). -/
lemma hitStep (pf : PriceRequest → Except String Result) (ttl now2 : ℚ)
    (T2 : ℤ) (req2 : PriceRequest) (key : String) (d : ServedResult) (ts : ℚ)
    (hl2 : 30 ≤ req2.historical_prices.length)
    (hkey : req2.symbol.toUpper = key) (hfresh : now2 - ts < ttl) :
    predictPriceStep pf ⟨ttl, [(key, ⟨d, ts⟩)]⟩ now2 T2 req2 =
      (.ok ⟨d.res, 0, true⟩, ⟨ttl, [(key, ⟨⟨d.res, 0, true⟩, ts⟩)]⟩) := by
  rw [predictPriceStep, if_neg (by omega)]
  have hget : (⟨ttl, [(key, ⟨d, ts⟩)]⟩ : ModelCache).get now2 req2.symbol =
      (some d, ⟨ttl, [(key, ⟨d, ts⟩)]⟩) := by
    unfold ModelCache.get
    simp [hkey, List.lookup, hfresh]
  rw [hget]
  unfold ModelCache.updateData
  simp [hkey]

/-- An expired entry: the read deletes it and misses, so the pipeline runs
again and its fresh result is stored. -/
lemma expiredStep (pf : PriceRequest → Except String Result) (ttl now2 : ℚ)
    (T2 : ℤ) (req2 : PriceRequest) (key : String) (d : ServedResult) (ts : ℚ)
    (r2 : Result) (hl2 : 30 ≤ req2.historical_prices.length)
    (hkey : req2.symbol.toUpper = key) (hstale : ¬ now2 - ts < ttl)
    (hpf2 : pf req2 = .ok r2) :
    ((⟨ttl, [(key, ⟨d, ts⟩)]⟩ : ModelCache).get now2 req2.symbol).1 = none ∧
    predictPriceStep pf ⟨ttl, [(key, ⟨d, ts⟩)]⟩ now2 T2 req2 =
      (.ok ⟨r2, T2, false⟩, ⟨ttl, [(key, ⟨⟨r2, T2, false⟩, now2⟩)]⟩) := by
  have hget : (⟨ttl, [(key, ⟨d, ts⟩)]⟩ : ModelCache).get now2 req2.symbol =
      (none, ⟨ttl, []⟩) := by
    unfold ModelCache.get
    simp [hkey, List.lookup, hstale]
  refine ⟨by rw [hget], ?_⟩
  rw [predictPriceStep, if_neg (by omega), hget, hpf2]
  unfold ModelCache.set
  simp [hkey]

/-! ## Claim C7 — idempotence under caching, expiry after the TTL -/

/-- Claim C7: two successive full-horizon requests for case-insensitively
equal symbols within the TTL return the same result payload (in particular
identical `chart_data` and `predictions`), differing only in `cached`
(false, then true) and `training_time_ms` (the measured duration, then 0);
a second request arriving once the TTL has elapsed finds no cache entry
(the read reports a miss) and retrains, serving a freshly computed result. -/
theorem C7_cache_idempotence (pf : PriceRequest → Except String Result)
    (ttl now1 now2 : ℚ) (T1 T2 : ℤ) (req1 req2 : PriceRequest) (r1 r2 : Result)
    (hsym : req1.symbol.toUpper = req2.symbol.toUpper)
    (hl1 : 30 ≤ req1.historical_prices.length)
    (hl2 : 30 ≤ req2.historical_prices.length)
    (hpf1 : pf req1 = .ok r1) (hpf2 : pf req2 = .ok r2) :
    (predictPriceStep pf ⟨ttl, []⟩ now1 T1 req1).1 = .ok ⟨r1, T1, false⟩ ∧
    (now2 - now1 < ttl →
      (predictPriceStep pf (predictPriceStep pf ⟨ttl, []⟩ now1 T1 req1).2
          now2 T2 req2).1 = .ok ⟨r1, 0, true⟩) ∧
    (¬ now2 - now1 < ttl →
      ((predictPriceStep pf ⟨ttl, []⟩ now1 T1 req1).2.get now2 req2.symbol).1
          = none ∧
      (predictPriceStep pf (predictPriceStep pf ⟨ttl, []⟩ now1 T1 req1).2
          now2 T2 req2).1 = .ok ⟨r2, T2, false⟩) := by
  have h1 := firstStep pf ttl now1 T1 req1 r1 hl1 hpf1
  refine ⟨by rw [h1], fun httl => ?_, fun hstale => ?_⟩
  · rw [h1, hitStep pf ttl now2 T2 req2 req1.symbol.toUpper ⟨r1, T1, false⟩ now1
      hl2 hsym.symm httl]
  · have h2 := expiredStep pf ttl now2 T2 req2 req1.symbol.toUpper
      ⟨r1, T1, false⟩ now1 r2 hl2 hsym.symm hstale hpf2
    exact ⟨by rw [h1, h2.1], by rw [h1, h2.2]⟩

/-- Witness for C7 with a concrete pipeline, symbols and clock values. -/
theorem C7_cache_idempotence_witness :
    (predictPriceStep (fun _ => .ok trivialResult) ⟨86400, []⟩ 0 7
        ⟨"TCS.NS", List.replicate 30 1, 1⟩).1 = .ok ⟨trivialResult, 7, false⟩ ∧
    ((3600 : ℚ) - 0 < 86400 →
      (predictPriceStep (fun _ => .ok trivialResult)
          (predictPriceStep (fun _ => .ok trivialResult) ⟨86400, []⟩ 0 7
            ⟨"TCS.NS", List.replicate 30 1, 1⟩).2 3600 9
          ⟨"TCS.NS", List.replicate 31 2, 2⟩).1 = .ok ⟨trivialResult, 0, true⟩) ∧
    (¬ (3600 : ℚ) - 0 < 86400 →
      ((predictPriceStep (fun _ => .ok trivialResult) ⟨86400, []⟩ 0 7
          ⟨"TCS.NS", List.replicate 30 1, 1⟩).2.get 3600 "TCS.NS").1 = none ∧
      (predictPriceStep (fun _ => .ok trivialResult)
          (predictPriceStep (fun _ => .ok trivialResult) ⟨86400, []⟩ 0 7
            ⟨"TCS.NS", List.replicate 30 1, 1⟩).2 3600 9
          ⟨"TCS.NS", List.replicate 31 2, 2⟩).1 = .ok ⟨trivialResult, 9, false⟩) :=
  C7_cache_idempotence (fun _ => .ok trivialResult) 86400 0 3600 7 9
    ⟨"TCS.NS", List.replicate 30 1, 1⟩ ⟨"TCS.NS", List.replicate 31 2, 2⟩
    trivialResult trivialResult rfl (by simp) (by simp) rfl rfl

/-! ## Claim C8 — what a cache hit does to the stored entry (corrected)

The claim as frozen says a stored entry is never modified by a read.  In
the source, the hit path writes through the alias returned by
`ModelCache.get` (`cached["cached"] = True; cached["training_time_ms"] = 0`
mutate the stored `entry["data"]` dict), so the stored payload's `cached`
flag flips from `False` to `True` on the first hit; see
`C8_cache_hit_mutation_counterexample`.  The amended statement: a hit
overwrites exactly the `cached` and `training_time_ms` fields of the stored
payload (to `true` and 0), leaving the forecast payload (`res`), the entry
timestamp, and every other cache entry unchanged. -/

lemma get_some_inv (c : ModelCache) (now : ℚ) (symbol : String)
    (d : ServedResult) (c1 : ModelCache)
    (h : c.get now symbol = (some d, c1)) :
    c1 = c ∧ ∃ e : CacheEntry, c.entries.lookup symbol.toUpper = some e ∧
      e.data = d ∧ now - e.timestamp < c.ttl := by
  simp only [ModelCache.get] at h
  cases hl : c.entries.lookup symbol.toUpper with
  | none => rw [hl] at h; simp at h
  | some e =>
    rw [hl] at h
    by_cases hf : now - e.timestamp < c.ttl
    · simp only [hf, if_true] at h
      exact ⟨(congrArg Prod.snd h).symm, e, rfl,
        Option.some.inj (congrArg Prod.fst h), hf⟩
    · simp [hf] at h

lemma lookup_update_ne (l : List (String × CacheEntry)) (up key : String)
    (data : ServedResult) (hne : key ≠ up) :
    (l.map fun kv =>
        if kv.1 = up then (kv.1, (⟨data, kv.2.timestamp⟩ : CacheEntry)) else kv).lookup
      key = l.lookup key := by
  induction l with
  | nil => rfl
  | cons kv tl ih =>
    obtain ⟨k, v⟩ := kv
    by_cases h : k = up
    · have hkk : (key == k) = false :=
        beq_eq_false_iff_ne.2 fun he => hne (he.trans h)
      simp only [List.map_cons, if_pos h, List.lookup_cons, hkk, cond_false]
      exact ih
    · simp only [List.map_cons, if_neg h, List.lookup_cons]
      cases hkk : key == k
      · simp only [cond_false]
        exact ih
      · simp only [cond_true]

lemma lookup_update_eq (l : List (String × CacheEntry)) (up : String)
    (data : ServedResult) (e : CacheEntry) (h : l.lookup up = some e) :
    (l.map fun kv =>
        if kv.1 = up then (kv.1, (⟨data, kv.2.timestamp⟩ : CacheEntry)) else kv).lookup
      up = some ⟨data, e.timestamp⟩ := by
  induction l with
  | nil => simp at h
  | cons kv tl ih =>
    obtain ⟨k, v⟩ := kv
    rw [List.lookup_cons] at h
    cases hkk : up == k with
    | true =>
      simp only [hkk, cond_true] at h
      obtain rfl := Option.some.inj h
      have hk : k = up := (beq_iff_eq.1 hkk).symm
      simp only [List.map_cons, if_pos hk, List.lookup_cons, hkk, cond_true]
    | false =>
      simp only [hkk, cond_false] at h
      have hk : ¬ k = up := fun he => by rw [he] at hkk; simp at hkk
      simp only [List.map_cons, if_neg hk, List.lookup_cons, hkk, cond_false]
      exact ih h

/-- Amended claim C8: serving a cache hit returns the stored payload with
`cached := true` and `training_time_ms := 0` and writes exactly those two
fields back into the stored entry: the stored forecast payload `res` and
the entry's timestamp survive unchanged, and every other key's entry is
untouched. -/
theorem C8_cache_hit_mutation (pf : PriceRequest → Except String Result)
    (c : ModelCache) (now : ℚ) (elapsed_ms : ℤ) (req : PriceRequest)
    (d : ServedResult) (c1 : ModelCache)
    (h30 : 30 ≤ req.historical_prices.length)
    (hget : c.get now req.symbol = (some d, c1)) :
    predictPriceStep pf c now elapsed_ms req =
      (.ok ⟨d.res, 0, true⟩, c1.updateData req.symbol ⟨d.res, 0, true⟩) ∧
    (∀ key, key ≠ req.symbol.toUpper →
      (c1.updateData req.symbol ⟨d.res, 0, true⟩).entries.lookup key =
        c1.entries.lookup key) ∧
    (∀ e : CacheEntry, c1.entries.lookup req.symbol.toUpper = some e →
      e.data = d ∧
      (c1.updateData req.symbol ⟨d.res, 0, true⟩).entries.lookup
          req.symbol.toUpper =
        some ⟨⟨e.data.res, 0, true⟩, e.timestamp⟩) := by
  obtain ⟨rfl, e0, hl0, hd0, _⟩ := get_some_inv c now req.symbol d c1 hget
  refine ⟨?_, fun key hne => lookup_update_ne _ _ _ _ hne, fun e he => ?_⟩
  · rw [predictPriceStep, if_neg (by omega), hget]
  · obtain rfl : e0 = e := Option.some.inj (hl0 ▸ he)
    refine ⟨hd0, ?_⟩
    simpa [hd0] using
      lookup_update_eq c1.entries req.symbol.toUpper ⟨d.res, 0, true⟩ e0 he

/-- Witness for the amended C8: a concrete hit on a one-entry cache. -/
theorem C8_cache_hit_mutation_witness :
    predictPriceStep (fun _ => .ok trivialResult)
        ⟨86400, [("TCS.NS".toUpper, ⟨⟨trivialResult, 7, false⟩, 0⟩)]⟩ 60 9
        ⟨"TCS.NS", List.replicate 30 1, 1⟩ =
      (.ok ⟨trivialResult, 0, true⟩,
        (⟨86400, [("TCS.NS".toUpper, ⟨⟨trivialResult, 7, false⟩, 0⟩)]⟩ :
            ModelCache).updateData "TCS.NS" ⟨trivialResult, 0, true⟩) ∧
    (∀ key, key ≠ ("TCS.NS" : String).toUpper →
      ((⟨86400, [("TCS.NS".toUpper, ⟨⟨trivialResult, 7, false⟩, 0⟩)]⟩ :
          ModelCache).updateData "TCS.NS" ⟨trivialResult, 0, true⟩).entries.lookup
          key =
        (⟨86400, [("TCS.NS".toUpper, ⟨⟨trivialResult, 7, false⟩, 0⟩)]⟩ :
          ModelCache).entries.lookup key) ∧
    (∀ e : CacheEntry,
      (⟨86400, [("TCS.NS".toUpper, ⟨⟨trivialResult, 7, false⟩, 0⟩)]⟩ :
          ModelCache).entries.lookup ("TCS.NS" : String).toUpper = some e →
      e.data = ⟨trivialResult, 7, false⟩ ∧
      ((⟨86400, [("TCS.NS".toUpper, ⟨⟨trivialResult, 7, false⟩, 0⟩)]⟩ :
          ModelCache).updateData "TCS.NS" ⟨trivialResult, 0, true⟩).entries.lookup
          ("TCS.NS" : String).toUpper =
        some ⟨⟨e.data.res, 0, true⟩, e.timestamp⟩) :=
  C8_cache_hit_mutation (fun _ => .ok trivialResult)
    ⟨86400, [("TCS.NS".toUpper, ⟨⟨trivialResult, 7, false⟩, 0⟩)]⟩ 60 9
    ⟨"TCS.NS", List.replicate 30 1, 1⟩ ⟨trivialResult, 7, false⟩
    ⟨86400, [("TCS.NS".toUpper, ⟨⟨trivialResult, 7, false⟩, 0⟩)]⟩
    (by simp)
    (by unfold ModelCache.get; simp [List.lookup]; norm_num)

/-- Counterexample to C8 as frozen: the stored entry for a symbol differs
before and after a cache hit is served — its `cached` flag (and
`training_time_ms`) are mutated by the read. -/
theorem C8_cache_hit_mutation_counterexample :
    ((predictPriceStep (fun _ => .ok trivialResult)
          (predictPriceStep (fun _ => .ok trivialResult) ⟨86400, []⟩ 0 7
            ⟨"TCS.NS", List.replicate 30 1, 1⟩).2 60 9
          ⟨"TCS.NS", List.replicate 30 1, 1⟩).2.entries.lookup
        ("TCS.NS" : String).toUpper) ≠
      ((predictPriceStep (fun _ => .ok trivialResult) ⟨86400, []⟩ 0 7
          ⟨"TCS.NS", List.replicate 30 1, 1⟩).2.entries.lookup
        ("TCS.NS" : String).toUpper) := by
  rw [firstStep (fun _ => .ok trivialResult) 86400 0 7
    ⟨"TCS.NS", List.replicate 30 1, 1⟩ trivialResult (by simp) rfl]
  rw [hitStep (fun _ => .ok trivialResult) 86400 60 9
    ⟨"TCS.NS", List.replicate 30 1, 1⟩ ("TCS.NS" : String).toUpper
    ⟨trivialResult, 7, false⟩ 0 (by simp) rfl (by norm_num)]
  simp [List.lookup]

/-! ## Claim C10 — the full-horizon cache is keyed on the symbol alone -/

/-- Claim C10: a second full-horizon request within the TTL whose symbol is
case-insensitively equal to the first's receives the first request's stored
result (only `cached`/`training_time_ms` restamped), even if it supplies
different `historical_prices` and/or a different `current_price`: the served
payload is the first request's `buildResult` — in particular its
`current_price` is the first request's, not the second's. -/
theorem C10_cache_keyed_on_symbol (flstm frf flr : List ℝ → ℝ)
    (rsi macd_val macd_sig : ℝ) (ttl now1 now2 : ℚ) (T1 T2 : ℤ)
    (req1 req2 : PriceRequest)
    (hsym : req1.symbol.toUpper = req2.symbol.toUpper)
    (hl1 : 30 ≤ req1.historical_prices.length)
    (hl2 : 30 ≤ req2.historical_prices.length)
    (httl : now2 - now1 < ttl) :
    ∃ (s1 s2 : ServedResult) (l r t : List ℝ),
      (predictPriceStep (fun rq => EnsemblePredictor.predict flstm frf flr
          rq.symbol rq.historical_prices rq.current_price rsi macd_val macd_sig)
        ⟨ttl, []⟩ now1 T1 req1).1 = .ok s1 ∧
      (predictPriceStep (fun rq => EnsemblePredictor.predict flstm frf flr
          rq.symbol rq.historical_prices rq.current_price rsi macd_val macd_sig)
        (predictPriceStep (fun rq => EnsemblePredictor.predict flstm frf flr
            rq.symbol rq.historical_prices rq.current_price rsi macd_val macd_sig)
          ⟨ttl, []⟩ now1 T1 req1).2 now2 T2 req2).1 = .ok s2 ∧
      s1.res = buildResult req1.symbol req1.historical_prices req1.current_price
        l r t rsi macd_val macd_sig ∧
      s2.res = s1.res ∧ s2.cached = true ∧ s2.training_time_ms = 0 ∧
      s2.res.current_price = req1.current_price ∧
      (req1.current_price ≠ req2.current_price →
        s2.res.current_price ≠ req2.current_price) := by
  obtain ⟨l, r, t, hok⟩ := predict_ok flstm frf flr req1.symbol
    req1.historical_prices req1.current_price rsi macd_val macd_sig
  have h1 := firstStep (fun rq => EnsemblePredictor.predict flstm frf flr
      rq.symbol rq.historical_prices rq.current_price rsi macd_val macd_sig)
    ttl now1 T1 req1 _ hl1 hok
  have h2 := hitStep (fun rq => EnsemblePredictor.predict flstm frf flr
      rq.symbol rq.historical_prices rq.current_price rsi macd_val macd_sig)
    ttl now2 T2 req2 req1.symbol.toUpper
    ⟨buildResult req1.symbol req1.historical_prices req1.current_price l r t
      rsi macd_val macd_sig, T1, false⟩ now1 hl2 hsym.symm httl
  refine ⟨⟨buildResult req1.symbol req1.historical_prices req1.current_price
      l r t rsi macd_val macd_sig, T1, false⟩,
    ⟨buildResult req1.symbol req1.historical_prices req1.current_price l r t
      rsi macd_val macd_sig, 0, true⟩, l, r, t,
    by rw [h1], by rw [h1, h2], rfl, rfl, rfl, rfl, rfl, fun hne => hne⟩

/-- Witness for C10: same symbol, different payload, a hit within the TTL. -/
theorem C10_cache_keyed_on_symbol_witness :
    ∃ (s1 s2 : ServedResult) (l r t : List ℝ),
      (predictPriceStep (fun rq => EnsemblePredictor.predict (fun _ => 0)
          (fun _ => 0) (fun _ => 0) rq.symbol rq.historical_prices
          rq.current_price 50 0 0)
        ⟨86400, []⟩ 0 7 ⟨"TCS.NS", List.replicate 30 1, 1⟩).1 = .ok s1 ∧
      (predictPriceStep (fun rq => EnsemblePredictor.predict (fun _ => 0)
          (fun _ => 0) (fun _ => 0) rq.symbol rq.historical_prices
          rq.current_price 50 0 0)
        (predictPriceStep (fun rq => EnsemblePredictor.predict (fun _ => 0)
            (fun _ => 0) (fun _ => 0) rq.symbol rq.historical_prices
            rq.current_price 50 0 0)
          ⟨86400, []⟩ 0 7 ⟨"TCS.NS", List.replicate 30 1, 1⟩).2 3600 9
        ⟨"TCS.NS", List.replicate 40 2, 2⟩).1 = .ok s2 ∧
      s1.res = buildResult "TCS.NS" (List.replicate 30 1) 1 l r t 50 0 0 ∧
      s2.res = s1.res ∧ s2.cached = true ∧ s2.training_time_ms = 0 ∧
      s2.res.current_price = 1 ∧
      ((1 : ℝ) ≠ 2 → s2.res.current_price ≠ 2) :=
  C10_cache_keyed_on_symbol (fun _ => 0) (fun _ => 0) (fun _ => 0) 50 0 0
    86400 0 3600 7 9 ⟨"TCS.NS", List.replicate 30 1, 1⟩
    ⟨"TCS.NS", List.replicate 40 2, 2⟩ rfl (by simp) (by simp) (by norm_num)

/-! ## Helper lemmas for the intraday OLS fit -/

lemma listSum_range_map (f : ℕ → ℝ) (n : ℕ) :
    ((List.range n).map f).sum = ∑ i ∈ Finset.range n, f i := by
  induction n with
  | zero => simp
  | succ m ih => rw [List.range_succ, Finset.sum_range_succ, ← ih]; simp

lemma sum_range_id_real (n : ℕ) :
    ∑ i ∈ Finset.range n, (i : ℝ) = n * ((n : ℝ) - 1) / 2 := by
  induction n with
  | zero => simp
  | succ m ih =>
    rw [Finset.sum_range_succ, ih]
    push_cast
    ring

lemma sum_range_sq_real (n : ℕ) :
    ∑ i ∈ Finset.range n, (i : ℝ) ^ 2 =
      n * ((n : ℝ) - 1) * (2 * n - 1) / 6 := by
  induction n with
  | zero => simp
  | succ m ih =>
    rw [Finset.sum_range_succ, ih]
    push_cast
    ring

lemma olsXbar_eq (n : ℕ) (hn : 1 ≤ n) : olsXbar n = ((n : ℝ) - 1) / 2 := by
  have h0 : (n : ℝ) ≠ 0 := by
    have : (0 : ℝ) < n := by exact_mod_cast (by omega : 0 < n)
    exact ne_of_gt this
  unfold olsXbar
  rw [sum_range_id_real]
  field_simp
  ring

lemma ols_den_eq (n : ℕ) (hn : 1 ≤ n) :
    ∑ i ∈ Finset.range n, ((i : ℝ) - olsXbar n) ^ 2 =
      n * ((n : ℝ) - 1) * ((n : ℝ) + 1) / 12 := by
  rw [olsXbar_eq n hn]
  have hterm : ∀ i ∈ Finset.range n,
      ((i : ℝ) - ((n : ℝ) - 1) / 2) ^ 2 =
        (i : ℝ) ^ 2 - ((n : ℝ) - 1) * i + ((n : ℝ) - 1) ^ 2 / 4 :=
    fun i _ => by ring
  rw [Finset.sum_congr rfl hterm]
  rw [Finset.sum_add_distrib, Finset.sum_sub_distrib, sum_range_sq_real,
    ← Finset.mul_sum, sum_range_id_real, Finset.sum_const, Finset.card_range,
    nsmul_eq_mul]
  ring

lemma ols_den_pos (n : ℕ) (hn : 2 ≤ n) :
    0 < ∑ i ∈ Finset.range n, ((i : ℝ) - olsXbar n) ^ 2 := by
  rw [ols_den_eq n (by omega)]
  have h2 : (2 : ℝ) ≤ (n : ℝ) := by exact_mod_cast hn
  apply div_pos
  · apply mul_pos (mul_pos (by linarith) (by linarith))
    linarith
  · norm_num

lemma affine_sum (a d : ℝ) (n : ℕ) :
    ((List.range n).map fun (i : ℕ) => a + d * (i : ℝ)).sum =
      n * a + d * (n * ((n : ℝ) - 1) / 2) := by
  rw [listSum_range_map, Finset.sum_add_distrib, Finset.sum_const,
    Finset.card_range, nsmul_eq_mul, ← Finset.mul_sum, sum_range_id_real]

/-- scikit-learn's 1-D OLS fit recovers an affine law exactly: on
`y_i = a + d*i` the slope is `d` and the intercept `a`. -/
lemma ols_affine (a d : ℝ) (n : ℕ) (hn : 2 ≤ n) :
    olsSlope ((List.range n).map fun (i : ℕ) => a + d * (i : ℝ)) = d ∧
    olsIntercept ((List.range n).map fun (i : ℕ) => a + d * (i : ℝ)) = a := by
  have hn0 : (n : ℝ) ≠ 0 := by
    have : (0 : ℝ) < n := by exact_mod_cast (by omega : 0 < n)
    exact ne_of_gt this
  have hlen : ((List.range n).map fun (i : ℕ) => a + d * (i : ℝ)).length = n := by
    simp
  have hybar : ((List.range n).map fun (i : ℕ) => a + d * (i : ℝ)).sum / (n : ℝ) =
      a + d * olsXbar n := by
    rw [affine_sum, olsXbar_eq n (by omega)]
    field_simp
    ring
  have hnum : ∑ i ∈ Finset.range n,
      ((i : ℝ) - olsXbar n) *
        (((List.range n).map fun (j : ℕ) => a + d * (j : ℝ)).getD i 0 -
          ((List.range n).map fun (j : ℕ) => a + d * (j : ℝ)).sum / (n : ℝ)) =
      d * ∑ i ∈ Finset.range n, ((i : ℝ) - olsXbar n) ^ 2 := by
    rw [Finset.mul_sum]
    apply Finset.sum_congr rfl
    intro i hi
    rw [rangeMap_getD _ n i 0 (Finset.mem_range.1 hi), hybar]
    ring
  have hden := ols_den_pos n hn
  have hslope : olsSlope ((List.range n).map fun (i : ℕ) => a + d * (i : ℝ)) = d := by
    unfold olsSlope
    rw [hlen, hnum, mul_div_assoc, div_self (ne_of_gt hden), mul_one]
  refine ⟨hslope, ?_⟩
  unfold olsIntercept
  rw [hlen, hslope, hybar]
  ring

/-- On a series following `y_i = a + d*i` with `d > 0`, one intraday horizon
entry (fit extrapolation plus momentum adjustment, compared against the last
observed price) reports direction "up". -/
lemma intradayEntry_direction_up (prices : List ℝ) (a d mom vol : ℝ)
    (n ticks : ℕ) (hlen : prices.length = n) (ht : 1 ≤ ticks) (hd : 0 < d)
    (hslope : olsSlope prices = d) (hicept : olsIntercept prices = a)
    (hlast : prices.getLast?.getD 0 = a + d * ((n : ℝ) - 1))
    (hmom : mom = 4 * d) :
    (EnsemblePredictor.intradayEntry prices mom vol 60 ticks).direction = "up" := by
  have hsteps : max 1 (ticks * 60 / 60) = ticks := by omega
  have htr : (1 : ℝ) ≤ (ticks : ℝ) := by exact_mod_cast ht
  have hgt : olsPredict prices ((n : ℝ) + (ticks : ℝ)) +
      mom * ((ticks : ℝ) / 5) * 0.3 > prices.getLast?.getD 0 := by
    rw [olsPredict, hslope, hicept, hlast, hmom]
    nlinarith [mul_pos hd (show (0 : ℝ) < (ticks : ℝ) by linarith)]
  unfold EnsemblePredictor.intradayEntry
  simp only [hsteps, hlen]
  rw [if_pos hgt]

/-! ## Claim C9 — strictly increasing intraday input yields "up" everywhere -/

/-- Claim C9: for an intraday request whose `recent_prices` increase by a
constant positive step (`y_i = a + d*i`, `d > 0`, at least 10 points) with
`interval_seconds = 60`, all three horizon predictions (5min, 15min, 30min)
report direction "up" — each horizon using `steps = max(1, minutes*60 /
interval_seconds)`, prediction = linear-fit extrapolation plus
`momentum*(steps/5)*0.3`, and direction classified against the last
observed price. -/
theorem C9_intraday_up (symbol : String) (a d : ℝ) (n : ℕ)
    (hd : 0 < d) (hn : 10 ≤ n) :
    ((EnsemblePredictor.predict_intraday symbol
        ((List.range n).map fun (i : ℕ) => a + d * (i : ℝ)) 60).predictions.map
      fun q => (q.1, q.2.direction)) =
      [("5min", "up"), ("15min", "up"), ("30min", "up")] := by
  have hlen : ((List.range n).map fun (i : ℕ) => a + d * (i : ℝ)).length = n := by
    simp
  have hlast : ((List.range n).map fun (i : ℕ) => a + d * (i : ℝ)).getLast?.getD 0 =
      a + d * ((n : ℝ) - 1) := by
    rw [List.getLast?_eq_getElem?, hlen, List.getElem?_map,
      List.getElem?_range (by omega : n - 1 < n)]
    simp only [Option.map_some', Option.getD_some]
    rw [Nat.cast_sub (by omega : 1 ≤ n)]
    norm_num
  have hmomv : (if 5 ≤ ((List.range n).map fun (i : ℕ) => a + d * (i : ℝ)).length
      then ((List.range n).map fun (i : ℕ) => a + d * (i : ℝ)).getLast?.getD 0 -
        ((List.range n).map fun (i : ℕ) => a + d * (i : ℝ)).getD
          (((List.range n).map fun (i : ℕ) => a + d * (i : ℝ)).length - 5) 0
      else 0) = 4 * d := by
    rw [if_pos (by rw [hlen]; omega), hlast, hlen,
      rangeMap_getD _ n (n - 5) 0 (by omega),
      Nat.cast_sub (by omega : 5 ≤ n)]
    ring
  have hols := ols_affine a d n (by omega)
  simp only [EnsemblePredictor.predict_intraday, List.map_cons, List.map_nil]
  rw [intradayEntry_direction_up _ a d _ _ n 5 hlen (by norm_num) hd
      hols.1 hols.2 hlast hmomv,
    intradayEntry_direction_up _ a d _ _ n 15 hlen (by norm_num) hd
      hols.1 hols.2 hlast hmomv,
    intradayEntry_direction_up _ a d _ _ n 30 hlen (by norm_num) hd
      hols.1 hols.2 hlast hmomv]

/-- Witness for C9 on the concrete series 0, 1, ..., 9. -/
theorem C9_intraday_up_witness :
    ((EnsemblePredictor.predict_intraday "X"
        ((List.range 10).map fun (i : ℕ) => 0 + 1 * (i : ℝ)) 60).predictions.map
      fun q => (q.1, q.2.direction)) =
      [("5min", "up"), ("15min", "up"), ("30min", "up")] :=
  C9_intraday_up "X" 0 1 10 zero_lt_one (by norm_num)

end StockAnalytics
